import Mathlib

/-!
Shallow embedding of `src/transport_connection.cpp` (Psiphon Windows client,
class `TransportConnection`): candidate filtering, the two-phase handshake,
the connect state machine, the shutdown wait and the cleanup sequencer.

External collaborators (the transport, `ServerRequest::MakeRequest`,
`SessionInfo::Set`/`ParseHandshakeResponse`, the local proxy, the system
proxy settings) live outside this translation unit; their observable
behaviour during one `Connect` invocation is supplied as an environment of
oracles, and the side effects the orchestrator requests of them are recorded
in an event trace.
-/

namespace TransportConnection

/-- One relay candidate. Only the field this translation unit reads
(`serverAddress`, used to build the handshake request path) is modelled;
everything else about an entry is consumed through the transport's
predicate oracle. -/
structure ServerEntry where
  serverAddress : String
deriving DecidableEq, Repr

/-- `ServerEntries` is a `vector<ServerEntry>`; the caller's list is borrowed
and mutated in place, modelled by returning the final list. -/
abbrev ServerEntries := List ServerEntry

/-- The fields of `SessionInfo` that this translation unit reads
(`GetClientSessionID`, `GetWebServerSecret`). Handshake merging is an
external operation (`ParseHandshakeResponse`), supplied by the environment
as a function producing a whole updated record. -/
structure SessionInfo where
  clientSessionID : String
  webServerSecret : String
deriving DecidableEq, Repr, Inhabited

/-- `ServerRequest::ReqLevel` as used at line 261: `FULL` for a
pre-transport handshake, `ONLY_IF_TRANSPORT` for a post-connect one. -/
inductive ReqLevel where
  | FULL
  | ONLY_IF_TRANSPORT
deriving DecidableEq, Repr

/-- Observable actions the orchestrator requests of its collaborators, in
program order. -/
inductive Event where
  | deleteSplitTunnelFile
  | handshakeRequest (preTransport : Bool)
  | transportConnectCall
  | localProxyStart
  | applyProxySettings
  | updateLocalProxySessionInfo
  | updateTransportSessionInfo
  | revertProxySettings
  | transportStop
  | transportCleanup
  | localProxyDelete
  | localProxyStop
deriving DecidableEq, Repr

/-- How one invocation of `TransportConnection::Connect` terminates.
`ubFrontEmpty` and `ubIndexOutOfRange` mark executions that call
`std::vector::front()` on an empty vector or `operator[]` out of range
(undefined behaviour in the source); the remaining constructors are the
normal return and the C++ exceptions that escape `Connect`. -/
inductive ConnectOutcome where
  | connected
  | tryNextServer
  | workerError
  | otherException
  | ubFrontEmpty
  | ubIndexOutOfRange
deriving DecidableEq, Repr

/-- Result of the transport's blocking `Connect` call (line 154): success
with the chosen candidate index, an `ITransport::TransportFailed` throw, or
any other exception. -/
inductive TransportConnectOutcome where
  | success (chosenSessionInfoIndex : Nat)
  | transportFailed
  | otherError
deriving DecidableEq, Repr

/-- Outcome of `DoHandshake` (lines 248-284): `failed` is the `return false`
path (request failure or empty response), `parseError` is the
`throw TryNextServer()` on a present-but-unparseable response, `ok` carries
the `SessionInfo` as mutated by `ParseHandshakeResponse`. -/
inductive HandshakeResult where
  | failed
  | parseError
  | ok (updated : SessionInfo)
deriving DecidableEq, Repr

/-- Compile-time constants from `embeddedvalues.h` (not part of this
translation unit); kept abstract. -/
structure EmbeddedValues where
  PROPAGATION_CHANNEL_ID : String
  SPONSOR_ID : String
  CLIENT_VERSION : String
deriving DecidableEq, Repr

/-- Modelled from the spec: the constant `HTTP_HANDSHAKE_REQUEST_PATH` is
defined in `config.h`, outside this translation unit; §6 of the spec gives
the handshake path the form `/handshake?...`. -/
def HTTP_HANDSHAKE_REQUEST_PATH : String := "/handshake"

/-- Behaviour of the external collaborators during one `Connect` invocation.
`isHandshakeRequired`, `getMultiConnectCount`, `getTransportProtocolName`
and `transportConnect` are the transport oracle; `sessionInfoSet` is
`SessionInfo::Set` (modelled from the spec: derived deterministically from a
`ServerEntry`); `makeRequest` is `ServerRequest::MakeRequest` (`none` for a
failed request); `parseHandshakeResponse` is
`SessionInfo::ParseHandshakeResponse` (`none` for a parse failure);
`localProxyStartOk` is the return value of `LocalProxy::Start`;
`splitTunnelDeleteFails` is true when `DeleteFile` on a nonempty
split-tunnelling path fails with an error other than
`ERROR_FILE_NOT_FOUND` (line 121). -/
structure Env where
  isHandshakeRequired : ServerEntry → Bool
  getMultiConnectCount : Nat
  getTransportProtocolName : String
  embeddedValues : EmbeddedValues
  sessionInfoSet : ServerEntry → SessionInfo
  makeRequest : ReqLevel → String → Option String
  parseHandshakeResponse : SessionInfo → String → Option SessionInfo
  transportConnect : List SessionInfo → TransportConnectOutcome
  localProxyStartOk : Bool
  splitTunnelDeleteFails : Bool

/-- The member state of a `TransportConnection` object that the claims
observe: whether `m_transport` and `m_localProxy` are set, and
`m_sessionInfo`. -/
structure TCState where
  m_transport : Bool
  m_localProxy : Bool
  m_sessionInfo : SessionInfo
deriving DecidableEq, Repr

/-- State after the constructor: both handles null. -/
def initState : TCState :=
  { m_transport := false, m_localProxy := false, m_sessionInfo := default }

/-- The backward `erase` loop of lines 88-94: iterating from the last index
down to 0 and erasing every entry for which the predicate holds removes
exactly those entries and keeps the rest in order. -/
def removeHandshakeRequired (pred : ServerEntry → Bool) : ServerEntries → ServerEntries
  | [] => []
  | e :: rest =>
      if pred e then removeHandshakeRequired pred rest
      else e :: removeHandshakeRequired pred rest

/-- The candidate-filtering step of `Connect`, lines 69-102. If the first
entry requires a pre-handshake the list is resized to 1 (`resize(1)` on a
nonempty vector is `take 1`); otherwise pre-handshake entries are erased and
the remainder resized to at most `GetMultiConnectCount()` (`resize` is only
invoked when the size exceeds the count, which `take` also covers). The
empty-list case never reaches this code: line 69 already evaluated
`front()`. -/
def filterServerEntries (pred : ServerEntry → Bool) (multiConnectCount : Nat)
    (l : ServerEntries) : ServerEntries :=
  match l.head? with
  | none => l
  | some first =>
      if pred first then l.take 1
      else (removeHandshakeRequired pred l).take multiConnectCount

/-- `TransportConnection::GetHandshakeRequestPath`, lines 286-307. The
`known_server` loop of lines 300-304 is a left fold of `+=` over the
entries. -/
def GetHandshakeRequestPath (ev : EmbeddedValues) (relayProtocolName : String)
    (sessionInfo : SessionInfo) (serverEntries : ServerEntries) : String :=
  let base :=
    HTTP_HANDSHAKE_REQUEST_PATH
      ++ "?client_session_id=" ++ sessionInfo.clientSessionID
      ++ "&propagation_channel_id=" ++ ev.PROPAGATION_CHANNEL_ID
      ++ "&sponsor_id=" ++ ev.SPONSOR_ID
      ++ "&client_version=" ++ ev.CLIENT_VERSION
      ++ "&server_secret=" ++ sessionInfo.webServerSecret
      ++ "&relay_protocol=" ++ relayProtocolName
  serverEntries.foldl (fun acc entry => acc ++ "&known_server=" ++ entry.serverAddress) base

/-- `TransportConnection::DoHandshake`, lines 248-284. `return false` when
the request fails or the response is empty; `throw TryNextServer()` when a
present response fails to parse; otherwise the `SessionInfo` is updated in
place with the parsed fields. -/
def DoHandshake (env : Env) (preTransport : Bool) (sessionInfo : SessionInfo)
    (serverEntries : ServerEntries) : HandshakeResult :=
  match env.makeRequest
      (if preTransport then ReqLevel.FULL else ReqLevel.ONLY_IF_TRANSPORT)
      (GetHandshakeRequestPath env.embeddedValues env.getTransportProtocolName
        sessionInfo serverEntries) with
  | none => HandshakeResult.failed
  | some handshakeResponse =>
      if handshakeResponse.length = 0 then HandshakeResult.failed
      else
        match env.parseHandshakeResponse sessionInfo handshakeResponse with
        | none => HandshakeResult.parseError
        | some updated => HandshakeResult.ok updated

/-- `TransportConnection::Cleanup`, lines 309-325: revert the system proxy
settings first; then, if a transport is attached, stop it and clean it up;
then delete the local proxy if one exists. `m_localProxy` is nulled;
`m_transport` is NOT nulled by this function. -/
def Cleanup (s : TCState) : TCState × List Event :=
  let evs :=
    [Event.revertProxySettings]
      ++ (if s.m_transport then [Event.transportStop, Event.transportCleanup] else [])
      ++ (if s.m_localProxy then [Event.localProxyDelete] else [])
  ({ s with m_localProxy := false }, evs)

/-- Everything one `Connect` invocation leaves behind: its outcome, the
final member state, the caller's (in-place mutated) server-entry list, and
the trace of collaborator actions it performed before returning or
throwing. -/
structure ConnectResult where
  outcome : ConnectOutcome
  state : TCState
  serverEntries : ServerEntries
  trace : List Event
deriving DecidableEq, Repr

/-- The `catch` clauses of lines 207-220: every exception escaping the `try`
block runs `Cleanup()` and then propagates (with
`ITransport::TransportFailed` already converted to `TryNextServer` at the
call site). -/
def catchAndCleanup (s : TCState) (entries : ServerEntries) (tr : List Event)
    (outcome : ConnectOutcome) : ConnectResult :=
  let c := Cleanup s
  { outcome := outcome, state := c.1, serverEntries := entries, trace := tr ++ c.2 }

/-- The `return` at the end of the `try` block: push the updated session
into the local proxy and the transport (lines 201-205) and terminate in the
connected state. -/
def finishConnect (s : TCState) (entries : ServerEntries) (tr : List Event) : ConnectResult :=
  { outcome := ConnectOutcome.connected, state := s, serverEntries := entries,
    trace := tr ++ [Event.updateLocalProxySessionInfo, Event.updateTransportSessionInfo] }

/-- The member state on entry to the `try` block: `m_transport` was just
set (line 115), no local proxy exists yet. -/
def connectEntryState : TCState :=
  { m_transport := true, m_localProxy := false, m_sessionInfo := default }

/-- The trace of line 121: the `DeleteFile` call happens only when the
split-tunnelling path is nonempty. -/
def splitTunnelTrace (splitTunnelingFilePathNonempty : Bool) : List Event :=
  if splitTunnelingFilePathNonempty then [Event.deleteSplitTunnelFile] else []

/-- Lines 149-205: the transport connect, local-proxy start, proxy-settings
apply, optional post-connect handshake and session propagation.
`candidates` is `sessionInfoCandidates` (with the front entry already
updated when a pre-handshake ran), `handshakeDone` the flag of line 116.
The state with `m_localProxy := true` and the chosen session is the member
state after lines 162-165 (`m_sessionInfo` assignment, `new LocalProxy`). -/
def afterHandshake (env : Env) (entries : ServerEntries) (candidates : List SessionInfo)
    (handshakeDone : Bool) (tr : List Event) (disallowHandshake : Bool)
    (s0 : TCState) : ConnectResult :=
  match env.transportConnect candidates with
  | TransportConnectOutcome.transportFailed =>
      catchAndCleanup s0 entries (tr ++ [Event.transportConnectCall])
        ConnectOutcome.tryNextServer
  | TransportConnectOutcome.otherError =>
      catchAndCleanup s0 entries (tr ++ [Event.transportConnectCall])
        ConnectOutcome.otherException
  | TransportConnectOutcome.success chosenSessionInfoIndex =>
      match candidates[chosenSessionInfoIndex]? with
      | none =>
          { outcome := ConnectOutcome.ubIndexOutOfRange, state := s0,
            serverEntries := entries, trace := tr ++ [Event.transportConnectCall] }
      | some chosen =>
          if !env.localProxyStartOk then
            catchAndCleanup { s0 with m_sessionInfo := chosen, m_localProxy := true } entries
              (tr ++ [Event.transportConnectCall, Event.localProxyStart])
              ConnectOutcome.workerError
          else if !handshakeDone && !disallowHandshake then
            match DoHandshake env false chosen entries with
            | HandshakeResult.failed =>
                finishConnect { s0 with m_sessionInfo := chosen, m_localProxy := true } entries
                  (tr ++ [Event.transportConnectCall, Event.localProxyStart,
                          Event.applyProxySettings, Event.handshakeRequest false])
            | HandshakeResult.parseError =>
                catchAndCleanup { s0 with m_sessionInfo := chosen, m_localProxy := true } entries
                  (tr ++ [Event.transportConnectCall, Event.localProxyStart,
                          Event.applyProxySettings, Event.handshakeRequest false])
                  ConnectOutcome.tryNextServer
            | HandshakeResult.ok updated =>
                finishConnect { s0 with m_sessionInfo := updated, m_localProxy := true } entries
                  (tr ++ [Event.transportConnectCall, Event.localProxyStart,
                          Event.applyProxySettings, Event.handshakeRequest false])
          else
            finishConnect { s0 with m_sessionInfo := chosen, m_localProxy := true } entries
              (tr ++ [Event.transportConnectCall, Event.localProxyStart,
                      Event.applyProxySettings])

/-- The `try` block of lines 107-220, entered with `m_transport` set (line
115). First the split-tunnelling file deletion of line 121, then the
`front()` of line 128 deciding the pre-handshake. -/
def connectBody (env : Env) (entries : ServerEntries)
    (splitTunnelingFilePathNonempty : Bool) (disallowHandshake : Bool) : ConnectResult :=
  if splitTunnelingFilePathNonempty && env.splitTunnelDeleteFails then
    catchAndCleanup connectEntryState entries [Event.deleteSplitTunnelFile]
      ConnectOutcome.otherException
  else
    match entries.head? with
    | none =>
        { outcome := ConnectOutcome.ubFrontEmpty, state := connectEntryState,
          serverEntries := entries, trace := splitTunnelTrace splitTunnelingFilePathNonempty }
    | some front1 =>
        if env.isHandshakeRequired front1 then
          match DoHandshake env true ((entries.map env.sessionInfoSet).headD default) entries with
          | HandshakeResult.failed =>
              catchAndCleanup connectEntryState entries
                (splitTunnelTrace splitTunnelingFilePathNonempty ++ [Event.handshakeRequest true])
                ConnectOutcome.tryNextServer
          | HandshakeResult.parseError =>
              catchAndCleanup connectEntryState entries
                (splitTunnelTrace splitTunnelingFilePathNonempty ++ [Event.handshakeRequest true])
                ConnectOutcome.tryNextServer
          | HandshakeResult.ok updated =>
              afterHandshake env entries ((entries.map env.sessionInfoSet).set 0 updated) true
                (splitTunnelTrace splitTunnelingFilePathNonempty ++ [Event.handshakeRequest true])
                disallowHandshake connectEntryState
        else
          afterHandshake env entries (entries.map env.sessionInfoSet) false
            (splitTunnelTrace splitTunnelingFilePathNonempty) disallowHandshake
            connectEntryState

/-- `TransportConnection::Connect`, lines 47-221, on a freshly constructed
object. Line 69 evaluates `front()` on the caller's list (undefined
behaviour when it is empty; the `assert` of line 59 is compiled out in
release builds); then the filtering of lines 69-102 mutates the list in
place; a required-but-disallowed handshake throws `TryNextServer` before
the `try` block, so no cleanup runs on that path. -/
def Connect (env : Env) (io_serverEntries : ServerEntries)
    (splitTunnelingFilePathNonempty : Bool) (disallowHandshake : Bool) : ConnectResult :=
  match io_serverEntries.head? with
  | none =>
      { outcome := ConnectOutcome.ubFrontEmpty, state := initState,
        serverEntries := io_serverEntries, trace := [] }
  | some first =>
      let entries :=
        filterServerEntries env.isHandshakeRequired env.getMultiConnectCount io_serverEntries
      if env.isHandshakeRequired first && disallowHandshake then
        { outcome := ConnectOutcome.tryNextServer, state := initState,
          serverEntries := entries, trace := [] }
      else
        connectBody env entries splitTunnelingFilePathNonempty disallowHandshake

/-- The `sessionInfoCandidates` vector that `Connect` hands to the
transport when no pre-handshake runs: the filtered entries mapped through
`SessionInfo::Set` (lines 107-113). -/
def connectCandidates (env : Env) (l : ServerEntries) : List SessionInfo :=
  (filterServerEntries env.isHandshakeRequired env.getMultiConnectCount l).map
    env.sessionInfoSet

/-- Outcome of `TransportConnection::WaitForDisconnect`: normal return or
the `IWorkerThread::Error` throw of line 244. -/
inductive WaitOutcome where
  | normal
  | workerError
deriving DecidableEq, Repr

/-- What one `WaitForDisconnect` invocation leaves behind. -/
structure WaitResult where
  outcome : WaitOutcome
  state : TCState
  trace : List Event
deriving DecidableEq, Repr

/-- `TransportConnection::WaitForDisconnect`, lines 223-246. `waitResult` is
the `DWORD` returned by `WaitForMultipleObjects`; with `WAIT_OBJECT_0 = 0`
and two handles, line 242 treats any value above 1 as a wait failure. Both
collaborators are stopped and `Cleanup()` runs unconditionally before the
result is examined. -/
def WaitForDisconnect (waitResult : Nat) (s : TCState) : WaitResult :=
  let tr : List Event := [Event.localProxyStop, Event.transportStop]
  let c := Cleanup s
  { outcome := if waitResult > 1 then WaitOutcome.workerError else WaitOutcome.normal,
    state := c.1,
    trace := tr ++ c.2 }

/-- `Stop` requests on the transport or the local proxy, as named by the
ordering requirement on `Cleanup`. -/
def isStopEvent : Event → Bool
  | Event.transportStop => true
  | Event.localProxyStop => true
  | _ => false

/-- The proxy-settings revert. -/
def isRevertEvent : Event → Bool
  | Event.revertProxySettings => true
  | _ => false

/-- "The revert occurs strictly before any Stop call": no stop event
appears before the first revert event of the trace (vacuously true when the
trace has stop events only after a revert, or none at all). -/
def revertBeforeAllStops (tr : List Event) : Bool :=
  (tr.takeWhile (fun e => !isRevertEvent e)).all (fun e => !isStopEvent e)

/-- The backward erase loop keeps exactly the entries whose predicate is
false, in order: it is `List.filter` with the negated predicate. -/
theorem removeHandshakeRequired_eq_filter (pred : ServerEntry → Bool) (l : ServerEntries) :
    removeHandshakeRequired pred l = l.filter (fun e => !pred e) := by
  induction l with
  | nil => rfl
  | cons e rest ih =>
      cases h : pred e <;> simp [removeHandshakeRequired, List.filter_cons, h, ih]

/-- Every survivor of the erase loop has a false predicate. -/
theorem mem_removeHandshakeRequired {pred : ServerEntry → Bool} {l : ServerEntries}
    {x : ServerEntry} (hx : x ∈ removeHandshakeRequired pred l) : pred x = false := by
  rw [removeHandshakeRequired_eq_filter] at hx
  simpa using (List.of_mem_filter hx)

/-- Filtering when the first entry requires a pre-handshake: truncate to
the single first entry. -/
theorem filterServerEntries_pos {pred : ServerEntry → Bool} {multiConnectCount : Nat}
    {e : ServerEntry} {rest : ServerEntries} (h : pred e = true) :
    filterServerEntries pred multiConnectCount (e :: rest) = [e] := by
  simp [filterServerEntries, h]

/-- Filtering when the first entry does not require a pre-handshake: erase
the pre-handshake entries, then truncate to the multi-connect count. -/
theorem filterServerEntries_neg {pred : ServerEntry → Bool} {multiConnectCount : Nat}
    {e : ServerEntry} {rest : ServerEntries} (h : pred e = false) :
    filterServerEntries pred multiConnectCount (e :: rest)
      = (removeHandshakeRequired pred (e :: rest)).take multiConnectCount := by
  simp [filterServerEntries, h]

/-- C4: for every non-empty candidate list whose first entry requires
pre-handshake according to the transport's predicate, the filtering step
truncates the caller's list to exactly one candidate — the original first
entry — regardless of the input length. -/
theorem C4_first_requires_preHandshake_truncates_to_one
    (pred : ServerEntry → Bool) (multiConnectCount : Nat)
    (e : ServerEntry) (rest : ServerEntries) (h : pred e = true) :
    filterServerEntries pred multiConnectCount (e :: rest) = [e] :=
  filterServerEntries_pos h

theorem C4_witness :
    (fun _ : ServerEntry => true) ⟨"10.0.0.1"⟩ = true ∧
      filterServerEntries (fun _ => true) 4
          [⟨"10.0.0.1"⟩, ⟨"10.0.0.2"⟩, ⟨"10.0.0.3"⟩] = [⟨"10.0.0.1"⟩] :=
  ⟨rfl, C4_first_requires_preHandshake_truncates_to_one (fun _ => true) 4
    ⟨"10.0.0.1"⟩ [⟨"10.0.0.2"⟩, ⟨"10.0.0.3"⟩] rfl⟩

/-- C5: for every non-empty candidate list whose first entry does not
require pre-handshake, the filtered list contains no entry that requires
pre-handshake, has length at most the transport's multi-connect count, and
is an order-preserving subsequence of the input. -/
theorem C5_first_not_requiring_preHandshake_filter_shape
    (pred : ServerEntry → Bool) (multiConnectCount : Nat)
    (e : ServerEntry) (rest : ServerEntries) (h : pred e = false) :
    (∀ x ∈ filterServerEntries pred multiConnectCount (e :: rest), pred x = false) ∧
      (filterServerEntries pred multiConnectCount (e :: rest)).length ≤ multiConnectCount ∧
      List.Sublist (filterServerEntries pred multiConnectCount (e :: rest)) (e :: rest) := by
  refine ⟨?_, ?_, ?_⟩
  · intro x hx
    rw [filterServerEntries_neg h] at hx
    exact mem_removeHandshakeRequired (List.mem_of_mem_take hx)
  · rw [filterServerEntries_neg h]
    exact List.length_take_le _ _
  · rw [filterServerEntries_neg h]
    refine (List.take_sublist _ _).trans ?_
    rw [removeHandshakeRequired_eq_filter]
    exact List.filter_sublist _

theorem C5_witness :
    (fun _ : ServerEntry => false) ⟨"10.0.0.1"⟩ = false ∧
      ((∀ x ∈ filterServerEntries (fun _ => false) 2
            [⟨"10.0.0.1"⟩, ⟨"10.0.0.2"⟩, ⟨"10.0.0.3"⟩],
          (fun _ : ServerEntry => false) x = false) ∧
        (filterServerEntries (fun _ => false) 2
            [⟨"10.0.0.1"⟩, ⟨"10.0.0.2"⟩, ⟨"10.0.0.3"⟩]).length ≤ 2 ∧
        List.Sublist
          (filterServerEntries (fun _ => false) 2
            [⟨"10.0.0.1"⟩, ⟨"10.0.0.2"⟩, ⟨"10.0.0.3"⟩])
          [⟨"10.0.0.1"⟩, ⟨"10.0.0.2"⟩, ⟨"10.0.0.3"⟩]) :=
  ⟨rfl, C5_first_not_requiring_preHandshake_filter_shape (fun _ => false) 2
    ⟨"10.0.0.1"⟩ [⟨"10.0.0.2"⟩, ⟨"10.0.0.3"⟩] rfl⟩

/-- A concrete environment: no entry requires a pre-handshake, the
transport connects choosing index 0, but `LocalProxy::Start` fails. -/
def envProxyStartFail : Env where
  isHandshakeRequired := fun _ => false
  getMultiConnectCount := 1
  getTransportProtocolName := "SSH"
  embeddedValues := { PROPAGATION_CHANNEL_ID := "00", SPONSOR_ID := "01", CLIENT_VERSION := "2" }
  sessionInfoSet := fun _ => { clientSessionID := "cs", webServerSecret := "sec" }
  makeRequest := fun _ _ => none
  parseHandshakeResponse := fun _ _ => none
  transportConnect := fun _ => TransportConnectOutcome.success 0
  localProxyStartOk := false
  splitTunnelDeleteFails := false

/-- C6 counterexample: the claim says that after every invocation of
`Cleanup` both handles are unset. After the `Connect` attempt in which the
local proxy fails to start (an exit path that runs `Cleanup`), the
transport handle `m_transport` is still set: `Cleanup` never nulls it. -/
theorem C6_counterexample :
    (Connect envProxyStartFail [⟨"192.0.2.1"⟩] false false).outcome
        = ConnectOutcome.workerError ∧
      (Connect envProxyStartFail [⟨"192.0.2.1"⟩] false false).state.m_transport = true := by
  decide

/-- C6 (amended): after every invocation of `Cleanup` the local-proxy
handle is unset, but the transport handle keeps its previous value —
`Cleanup` does not clear `m_transport` — so a fresh attempt is possible
only after reconstruction. -/
theorem C6_cleanup_clears_localProxy_keeps_transport :
    ∀ s : TCState,
      (Cleanup s).1.m_localProxy = false ∧ (Cleanup s).1.m_transport = s.m_transport :=
  fun _ => ⟨rfl, rfl⟩

/-- The claim's reading of the trailing components of the handshake path:
one `&known_server=<address>` component per server entry, in list order. -/
def knownServerComponents : ServerEntries → String
  | [] => ""
  | e :: rest => "&known_server=" ++ e.serverAddress ++ knownServerComponents rest

/-- The `+=` loop of lines 300-304 (a left fold) appends exactly the
per-entry components, in order. -/
theorem foldl_knownServerComponents (l : ServerEntries) (base : String) :
    l.foldl (fun acc entry => acc ++ "&known_server=" ++ entry.serverAddress) base
      = base ++ knownServerComponents l := by
  induction l generalizing base with
  | nil => simp [knownServerComponents]
  | cons e rest ih =>
      rw [List.foldl_cons, ih]
      simp [knownServerComponents, String.append_assoc]

/-- C8: for every session and every caller-held server-entry list, the
handshake request path is the fixed concatenation
`/handshake?client_session_id=<id>&propagation_channel_id=<id>&sponsor_id=<id>&client_version=<v>&server_secret=<secret>&relay_protocol=<name>`
followed by one `&known_server=<address>` component for each entry of the
full list, in list order. -/
theorem C8_handshake_request_path_format (ev : EmbeddedValues) (relayProtocolName : String)
    (sessionInfo : SessionInfo) (serverEntries : ServerEntries) :
    GetHandshakeRequestPath ev relayProtocolName sessionInfo serverEntries
      = "/handshake?client_session_id=" ++ sessionInfo.clientSessionID
          ++ "&propagation_channel_id=" ++ ev.PROPAGATION_CHANNEL_ID
          ++ "&sponsor_id=" ++ ev.SPONSOR_ID
          ++ "&client_version=" ++ ev.CLIENT_VERSION
          ++ "&server_secret=" ++ sessionInfo.webServerSecret
          ++ "&relay_protocol=" ++ relayProtocolName
          ++ knownServerComponents serverEntries := by
  show List.foldl _ _ serverEntries = _
  rw [foldl_knownServerComponents]
  rfl

/-- A concrete environment whose transport requires a pre-handshake for
every entry. -/
def envPreHandshakeOnly : Env :=
  { envProxyStartFail with isHandshakeRequired := fun _ => true }

/-- C9: when `Connect` fails with the retryable failure because the first
entry requires pre-handshake and the caller disallowed handshakes, the
caller's list has already been truncated in place to exactly the original
first entry, the truncation is not rolled back, and no cleanup action of
any kind precedes the failure signal (the trace is empty). -/
theorem C9_disallowed_preHandshake_truncates_without_cleanup
    (env : Env) (e : ServerEntry) (rest : ServerEntries)
    (splitTunnelingFilePathNonempty : Bool)
    (h : env.isHandshakeRequired e = true) :
    (Connect env (e :: rest) splitTunnelingFilePathNonempty true).outcome
        = ConnectOutcome.tryNextServer ∧
      (Connect env (e :: rest) splitTunnelingFilePathNonempty true).serverEntries = [e] ∧
      (Connect env (e :: rest) splitTunnelingFilePathNonempty true).trace = [] := by
  simp [Connect, filterServerEntries_pos h, h]

theorem C9_witness :
    envPreHandshakeOnly.isHandshakeRequired ⟨"192.0.2.1"⟩ = true ∧
      ((Connect envPreHandshakeOnly [⟨"192.0.2.1"⟩, ⟨"192.0.2.2"⟩] false true).outcome
          = ConnectOutcome.tryNextServer ∧
        (Connect envPreHandshakeOnly [⟨"192.0.2.1"⟩, ⟨"192.0.2.2"⟩] false true).serverEntries
          = [⟨"192.0.2.1"⟩] ∧
        (Connect envPreHandshakeOnly [⟨"192.0.2.1"⟩, ⟨"192.0.2.2"⟩] false true).trace = []) :=
  ⟨rfl, C9_disallowed_preHandshake_truncates_without_cleanup envPreHandshakeOnly
    ⟨"192.0.2.1"⟩ [⟨"192.0.2.2"⟩] false rfl⟩

/-- C10: in `WaitForDisconnect`, whatever the wait primitive returns —
including a wait failure — `Stop` is called on the local proxy and on the
transport and the full cleanup sequence runs; the fatal worker error is
raised exactly when the wait result indicates failure, and only after that
complete teardown (the trace and final state do not depend on the wait
result). -/
theorem C10_waitForDisconnect_teardown_before_error (waitResult : Nat) (s : TCState) :
    (WaitForDisconnect waitResult s).trace
        = [Event.localProxyStop, Event.transportStop] ++ (Cleanup s).2 ∧
      (WaitForDisconnect waitResult s).state = (Cleanup s).1 ∧
      ((WaitForDisconnect waitResult s).outcome = WaitOutcome.workerError ↔ waitResult > 1) := by
  refine ⟨rfl, rfl, ?_⟩
  by_cases h : waitResult > 1 <;> simp [WaitForDisconnect, h]

/-- An event that is neither the revert nor a stop keeps the
revert-before-stops property of the rest of the trace. -/
theorem revertBeforeAllStops_cons_quiet {a : Event} (h1 : isRevertEvent a = false)
    (h2 : isStopEvent a = false) (l : List Event) :
    revertBeforeAllStops (a :: l) = revertBeforeAllStops l := by
  simp [revertBeforeAllStops, List.takeWhile_cons, h1, h2]

/-- A trace that starts with the revert satisfies revert-before-stops. -/
theorem revertBeforeAllStops_revert_cons (l : List Event) :
    revertBeforeAllStops (Event.revertProxySettings :: l) = true := by
  simp [revertBeforeAllStops, List.takeWhile_cons, isRevertEvent]

/-- Prepending revert-free, stop-free events preserves revert-before-stops. -/
theorem revertBeforeAllStops_append_quiet {tr : List Event}
    (h : ∀ e ∈ tr, isRevertEvent e = false ∧ isStopEvent e = false) (l : List Event) :
    revertBeforeAllStops (tr ++ l) = revertBeforeAllStops l := by
  induction tr with
  | nil => rfl
  | cons a tr ih =>
      have ha := h a (List.mem_cons_self a tr)
      rw [List.cons_append, revertBeforeAllStops_cons_quiet ha.1 ha.2]
      exact ih (fun e he => h e (List.mem_cons_of_mem a he))

/-- A trace with no revert and no stop satisfies revert-before-stops. -/
theorem revertBeforeAllStops_quiet {tr : List Event}
    (h : ∀ e ∈ tr, isRevertEvent e = false ∧ isStopEvent e = false) :
    revertBeforeAllStops tr = true := by
  have := revertBeforeAllStops_append_quiet h []
  simpa using this

/-- Any quiet prefix followed by the `Cleanup` event sequence satisfies
revert-before-stops: `Cleanup` reverts the proxy settings first. -/
theorem revertBeforeAllStops_cleanup (s : TCState) {tr : List Event}
    (h : ∀ e ∈ tr, isRevertEvent e = false ∧ isStopEvent e = false) :
    revertBeforeAllStops (tr ++ (Cleanup s).2) = true := by
  rw [revertBeforeAllStops_append_quiet h]
  exact revertBeforeAllStops_revert_cons _

/-- Concatenation of quiet traces is quiet. -/
theorem quiet_append {tr l : List Event}
    (h1 : ∀ e ∈ tr, isRevertEvent e = false ∧ isStopEvent e = false)
    (h2 : ∀ e ∈ l, isRevertEvent e = false ∧ isStopEvent e = false) :
    ∀ e ∈ tr ++ l, isRevertEvent e = false ∧ isStopEvent e = false := by
  intro e he
  rcases List.mem_append.1 he with h | h
  exacts [h1 e h, h2 e h]

/-- The trace an exception exit leaves: the prefix followed by the
`Cleanup` event sequence. -/
theorem catchAndCleanup_trace (s : TCState) (entries : ServerEntries) (tr : List Event)
    (outcome : ConnectOutcome) :
    (catchAndCleanup s entries tr outcome).trace = tr ++ (Cleanup s).2 := rfl

/-- The trace the successful return leaves: the prefix followed by the two
session-propagation calls. -/
theorem finishConnect_trace (s : TCState) (entries : ServerEntries) (tr : List Event) :
    (finishConnect s entries tr).trace
      = tr ++ [Event.updateLocalProxySessionInfo, Event.updateTransportSessionInfo] := rfl

/-- Every exit of `afterHandshake` either never reverts nor stops, or
reverts before it stops, provided the prefix trace is quiet. -/
theorem afterHandshake_trace_revertBeforeAllStops (env : Env) (entries : ServerEntries)
    (candidates : List SessionInfo) (handshakeDone : Bool) (tr : List Event)
    (disallowHandshake : Bool) (s0 : TCState)
    (htr : ∀ e ∈ tr, isRevertEvent e = false ∧ isStopEvent e = false) :
    revertBeforeAllStops
      (afterHandshake env entries candidates handshakeDone tr disallowHandshake s0).trace
        = true := by
  unfold afterHandshake
  split
  · rw [catchAndCleanup_trace]
    exact revertBeforeAllStops_cleanup _ (quiet_append htr (by decide))
  · rw [catchAndCleanup_trace]
    exact revertBeforeAllStops_cleanup _ (quiet_append htr (by decide))
  · split
    · exact revertBeforeAllStops_quiet (quiet_append htr (by decide))
    · split
      · rw [catchAndCleanup_trace]
        exact revertBeforeAllStops_cleanup _ (quiet_append htr (by decide))
      · split
        · split
          · rw [finishConnect_trace]
            exact revertBeforeAllStops_quiet
              (quiet_append (quiet_append htr (by decide)) (by decide))
          · rw [catchAndCleanup_trace]
            exact revertBeforeAllStops_cleanup _ (quiet_append htr (by decide))
          · rw [finishConnect_trace]
            exact revertBeforeAllStops_quiet
              (quiet_append (quiet_append htr (by decide)) (by decide))
        · rw [finishConnect_trace]
          exact revertBeforeAllStops_quiet
            (quiet_append (quiet_append htr (by decide)) (by decide))

/-- Every exit of the `try` block reverts before it stops (or does
neither). -/
theorem connectBody_trace_revertBeforeAllStops (env : Env) (entries : ServerEntries)
    (splitTunnelingFilePathNonempty disallowHandshake : Bool) :
    revertBeforeAllStops
      (connectBody env entries splitTunnelingFilePathNonempty disallowHandshake).trace
        = true := by
  have h0 : ∀ e ∈ splitTunnelTrace splitTunnelingFilePathNonempty,
      isRevertEvent e = false ∧ isStopEvent e = false := by
    cases splitTunnelingFilePathNonempty <;> decide
  unfold connectBody
  split
  · rw [catchAndCleanup_trace]
    exact revertBeforeAllStops_cleanup _ (by decide)
  · split
    · exact revertBeforeAllStops_quiet h0
    · split
      · split
        · rw [catchAndCleanup_trace]
          exact revertBeforeAllStops_cleanup _ (quiet_append h0 (by decide))
        · rw [catchAndCleanup_trace]
          exact revertBeforeAllStops_cleanup _ (quiet_append h0 (by decide))
        · exact afterHandshake_trace_revertBeforeAllStops _ _ _ _ _ _ _
            (quiet_append h0 (by decide))
      · exact afterHandshake_trace_revertBeforeAllStops _ _ _ _ _ _ _ h0

/-- An environment in which `Connect` succeeds: no pre-handshake required,
the transport chooses index 0, the local proxy starts, and the post-connect
handshake request fails (which is non-fatal). -/
def envHappy : Env :=
  { envProxyStartFail with localProxyStartOk := true }

/-- C2 counterexample: the claim requires the revert to come strictly
before any `Stop` on every exit path including shutdown via
`WaitForDisconnect`; but after a successful `Connect`, `WaitForDisconnect`
calls `Stop` on the local proxy and the transport before `Cleanup` (and
hence before the revert), so the ordering is violated on that path. -/
theorem C2_counterexample :
    (Connect envHappy [⟨"192.0.2.1"⟩] false false).outcome = ConnectOutcome.connected ∧
      revertBeforeAllStops
        (WaitForDisconnect 0 (Connect envHappy [⟨"192.0.2.1"⟩] false false).state).trace
          = false := by
  decide

/-- C2 (amended): on every exit path of `Connect` (early retryable
failure, any exception caught in the `try` block, and success) the revert
of the system proxy settings occurs strictly before any `Stop` call on the
transport or the local proxy; but in `WaitForDisconnect` the `Stop` calls
on the local proxy and the transport come first, before `Cleanup` performs
the revert. -/
theorem C2_amended_revert_ordering :
    (∀ (env : Env) (l : ServerEntries) (splitTunnelingFilePathNonempty disallowHandshake : Bool),
        revertBeforeAllStops
          (Connect env l splitTunnelingFilePathNonempty disallowHandshake).trace = true) ∧
      (∀ (waitResult : Nat) (s : TCState),
        (WaitForDisconnect waitResult s).trace.take 2
          = [Event.localProxyStop, Event.transportStop]) := by
  constructor
  · intro env l stf dah
    cases l with
    | nil => rfl
    | cons e rest =>
        simp only [Connect, List.head?_cons]
        by_cases h : (env.isHandshakeRequired e && dah) = true
        · rw [if_pos h]
          rfl
        · rw [if_neg h]
          exact connectBody_trace_revertBeforeAllStops _ _ _ _
  · intro waitResult s
    rfl

/-- Evaluation of `Connect` up to the transport-connect stage when the
first entry needs no pre-handshake, the split-tunnelling deletion does not
throw, and the multi-connect count is positive: control reaches
`afterHandshake` with the filtered entries, no pre-handshake done, and the
entry state. -/
theorem Connect_no_preHandshake_eval (env : Env) (e : ServerEntry) (rest : ServerEntries)
    (stf dah : Bool) (hpred : env.isHandshakeRequired e = false)
    (hsplit : env.splitTunnelDeleteFails = false)
    (hcount : 0 < env.getMultiConnectCount) :
    Connect env (e :: rest) stf dah
      = afterHandshake env
          (filterServerEntries env.isHandshakeRequired env.getMultiConnectCount (e :: rest))
          (connectCandidates env (e :: rest)) false (splitTunnelTrace stf) dah
          connectEntryState := by
  obtain ⟨k, hk⟩ : ∃ k, env.getMultiConnectCount = k + 1 :=
    ⟨env.getMultiConnectCount - 1, by omega⟩
  have hfil : filterServerEntries env.isHandshakeRequired env.getMultiConnectCount (e :: rest)
      = e :: (removeHandshakeRequired env.isHandshakeRequired rest).take k := by
    rw [filterServerEntries_neg hpred]
    simp [removeHandshakeRequired, hpred, hk]
  have hbody : Connect env (e :: rest) stf dah
      = connectBody env
          (filterServerEntries env.isHandshakeRequired env.getMultiConnectCount (e :: rest))
          stf dah := by
    simp [Connect, hpred]
  rw [hbody]
  simp only [connectCandidates]
  rw [hfil]
  unfold connectBody
  rw [if_neg (by simp [hsplit])]
  simp only [List.head?_cons, hpred, Bool.false_eq_true, if_false, splitTunnelTrace]

/-- C1 counterexample environment: no pre-handshake, transport and local
proxy succeed, and the post-connect handshake returns a present but
malformed (unparseable) response. -/
def envPostMalformed : Env :=
  { envHappy with
      makeRequest := fun _ _ => some "r"
      parseHandshakeResponse := fun _ _ => none }

/-- C1 counterexample: the claim says `Connect` reaches `Connected` for
every failure mode of the post-connect handshake, including a
present-but-malformed response. With a malformed response, `DoHandshake`
throws `TryNextServer` (line 280) and `Connect` fails retryably instead of
reaching the connected state; the post-connect handshake was performed
(its request event is in the trace). -/
theorem C1_counterexample :
    (Connect envPostMalformed [⟨"192.0.2.1"⟩] false false).outcome
        = ConnectOutcome.tryNextServer ∧
      (Connect envPostMalformed [⟨"192.0.2.1"⟩] false false).outcome
        ≠ ConnectOutcome.connected ∧
      Event.handshakeRequest false ∈ (Connect envPostMalformed [⟨"192.0.2.1"⟩] false false).trace := by
  decide

/-- C1 (amended): when a post-connect handshake is performed (no
pre-handshake occurred and handshakes are not disallowed), a failure of
that handshake consisting of a failed request or an empty response never
fails the overall attempt — `Connect` still reaches the connected terminal
state; a present-but-malformed response, by contrast, aborts the attempt
with the retryable failure. -/
theorem C1_amended_postHandshake_soft_failure_nonfatal
    (env : Env) (e : ServerEntry) (rest : ServerEntries) (stf : Bool) (i : Nat)
    (hpred : env.isHandshakeRequired e = false)
    (hsplit : env.splitTunnelDeleteFails = false)
    (hconn : env.transportConnect (connectCandidates env (e :: rest))
        = TransportConnectOutcome.success i)
    (hidx : i < (connectCandidates env (e :: rest)).length)
    (hlp : env.localProxyStartOk = true)
    (hsoft : ∀ p r, env.makeRequest ReqLevel.ONLY_IF_TRANSPORT p = some r → r.length = 0) :
    (Connect env (e :: rest) stf false).outcome = ConnectOutcome.connected ∧
      Event.handshakeRequest false ∈ (Connect env (e :: rest) stf false).trace := by
  have hcount : 0 < env.getMultiConnectCount := by
    have h1 : 0 < (connectCandidates env (e :: rest)).length :=
      lt_of_le_of_lt (Nat.zero_le i) hidx
    have h2 : (connectCandidates env (e :: rest)).length ≤ env.getMultiConnectCount := by
      simp only [connectCandidates, filterServerEntries_neg hpred, List.length_map]
      exact List.length_take_le _ _
    omega
  rw [Connect_no_preHandshake_eval env e rest stf false hpred hsplit hcount]
  unfold afterHandshake DoHandshake
  simp only [hconn, List.getElem?_eq_getElem hidx]
  cases hm : env.makeRequest ReqLevel.ONLY_IF_TRANSPORT
      (GetHandshakeRequestPath env.embeddedValues env.getTransportProtocolName
        (connectCandidates env (e :: rest))[i]
        (filterServerEntries env.isHandshakeRequired env.getMultiConnectCount (e :: rest))) with
  | none =>
      refine ⟨?_, ?_⟩ <;> simp [hm, hlp, finishConnect]
  | some r =>
      refine ⟨?_, ?_⟩ <;> simp [hm, hlp, hsoft _ _ hm, finishConnect]

theorem C1_witness :
    envHappy.isHandshakeRequired ⟨"192.0.2.1"⟩ = false ∧
      envHappy.splitTunnelDeleteFails = false ∧
      envHappy.transportConnect (connectCandidates envHappy [⟨"192.0.2.1"⟩])
        = TransportConnectOutcome.success 0 ∧
      0 < (connectCandidates envHappy [⟨"192.0.2.1"⟩]).length ∧
      envHappy.localProxyStartOk = true ∧
      (Connect envHappy [⟨"192.0.2.1"⟩] false false).outcome = ConnectOutcome.connected ∧
      Event.handshakeRequest false ∈ (Connect envHappy [⟨"192.0.2.1"⟩] false false).trace :=
  ⟨rfl, rfl, rfl, by decide, rfl,
    C1_amended_postHandshake_soft_failure_nonfatal envHappy ⟨"192.0.2.1"⟩ [] false 0
      rfl rfl rfl (by decide) rfl (fun _ _ h => Option.noConfusion h)⟩

/-- C7: if `LocalProxy::Start` fails after a successful transport connect,
`Connect` raises the fatal worker error (not the retryable failure), the
system proxy settings are never applied during the attempt, and the
transport is stopped and cleaned up before the error propagates. -/
theorem C7_localProxyStart_failure_fatal
    (env : Env) (e : ServerEntry) (rest : ServerEntries) (stf dah : Bool) (i : Nat)
    (hpred : env.isHandshakeRequired e = false)
    (hsplit : env.splitTunnelDeleteFails = false)
    (hconn : env.transportConnect (connectCandidates env (e :: rest))
        = TransportConnectOutcome.success i)
    (hidx : i < (connectCandidates env (e :: rest)).length)
    (hlp : env.localProxyStartOk = false) :
    (Connect env (e :: rest) stf dah).outcome = ConnectOutcome.workerError ∧
      (Connect env (e :: rest) stf dah).outcome ≠ ConnectOutcome.tryNextServer ∧
      Event.applyProxySettings ∉ (Connect env (e :: rest) stf dah).trace ∧
      Event.transportStop ∈ (Connect env (e :: rest) stf dah).trace ∧
      Event.transportCleanup ∈ (Connect env (e :: rest) stf dah).trace := by
  have hcount : 0 < env.getMultiConnectCount := by
    have h1 : 0 < (connectCandidates env (e :: rest)).length :=
      lt_of_le_of_lt (Nat.zero_le i) hidx
    have h2 : (connectCandidates env (e :: rest)).length ≤ env.getMultiConnectCount := by
      simp only [connectCandidates, filterServerEntries_neg hpred, List.length_map]
      exact List.length_take_le _ _
    omega
  rw [Connect_no_preHandshake_eval env e rest stf dah hpred hsplit hcount]
  unfold afterHandshake
  simp only [hconn, List.getElem?_eq_getElem hidx]
  refine ⟨?_, ?_, ?_, ?_, ?_⟩ <;>
    cases stf <;>
      simp [hlp, catchAndCleanup, Cleanup, connectEntryState, splitTunnelTrace]

theorem C7_witness :
    envProxyStartFail.isHandshakeRequired ⟨"192.0.2.1"⟩ = false ∧
      envProxyStartFail.splitTunnelDeleteFails = false ∧
      envProxyStartFail.transportConnect (connectCandidates envProxyStartFail [⟨"192.0.2.1"⟩])
        = TransportConnectOutcome.success 0 ∧
      0 < (connectCandidates envProxyStartFail [⟨"192.0.2.1"⟩]).length ∧
      envProxyStartFail.localProxyStartOk = false ∧
      ((Connect envProxyStartFail [⟨"192.0.2.1"⟩] false false).outcome
          = ConnectOutcome.workerError ∧
        (Connect envProxyStartFail [⟨"192.0.2.1"⟩] false false).outcome
          ≠ ConnectOutcome.tryNextServer ∧
        Event.applyProxySettings ∉ (Connect envProxyStartFail [⟨"192.0.2.1"⟩] false false).trace ∧
        Event.transportStop ∈ (Connect envProxyStartFail [⟨"192.0.2.1"⟩] false false).trace ∧
        Event.transportCleanup ∈ (Connect envProxyStartFail [⟨"192.0.2.1"⟩] false false).trace) :=
  ⟨rfl, rfl, rfl, by decide, rfl,
    C7_localProxyStart_failure_fatal envProxyStartFail ⟨"192.0.2.1"⟩ [] false false 0
      rfl rfl rfl (by decide) rfl⟩

/-- C3 failing input: the transport declares a multi-connect count of zero
and no entry requires a pre-handshake, so the filtering step empties the
caller's list. -/
def envZeroMultiConnect : Env :=
  { envHappy with getMultiConnectCount := 0 }

/-- C3: the claim (and the spec) requires `Connect` to signal
`NoUsableCandidates` when the filtering step empties the list. The code has
no emptiness check at all: with the list filtered to empty it enters the
`try` block and evaluates `io_serverEntries.front()` on an empty vector at
line 128 (undefined behaviour) on the way to the transport connect step;
no error of any kind is signalled at the filtering stage (the trace up to
that point is empty). -/
theorem C3_empty_filter_no_signal_reaches_ub :
    (Connect envZeroMultiConnect [⟨"192.0.2.1"⟩] false false).outcome
        = ConnectOutcome.ubFrontEmpty ∧
      (Connect envZeroMultiConnect [⟨"192.0.2.1"⟩] false false).serverEntries = [] ∧
      (Connect envZeroMultiConnect [⟨"192.0.2.1"⟩] false false).trace = [] := by
  decide

end TransportConnection
